import Mathlib

/-!
Verification of the rtl_433 Gridstream repository core:
`src/baseband.c` (envelope detector, streaming IIR low-pass filter, FM
demodulator) and `src/devices/gridstream.c` (frame decoder for Landis & Gyr
Gridstream power meters).

The C code is shallowly embedded: C `int` arithmetic is modelled by `Int`
(no 32-bit wrap is applied where the source provably cannot overflow 32
bits on its byte/int16-bounded inputs), stores into narrower machine types
apply the corresponding wrap explicitly (`toInt16`, `cUInt16n`, `cUnsigned`),
arithmetic right shift on signed values is floor division by a power of two
(the gcc/clang semantics the source relies on), and C truncating division
is `Int.div`.
-/

/-- Wrap to a C `uint16_t` store (value taken modulo 2^16). -/
def cUInt16n (x : Nat) : Nat := x % 65536

/-- Conversion of a C `int` value to `unsigned int` (modulo 2^32), as
happens when a possibly negative `int` argument is passed to an `unsigned`
parameter. -/
def cUnsigned (x : Int) : Nat := (Int.emod x 4294967296).toNat

/-- Wrap to a C `int16_t` store: two's-complement truncation to 16 bits. -/
def toInt16 (x : Int) : Int := Int.emod (x + 32768) 65536 - 32768

/-- Arithmetic right shift on a signed C `int`: floor division by `2^k`. -/
def sar (x : Int) (k : Nat) : Int := Int.fdiv x (2 ^ k)

/-- A C `uint8_t` array read: the stored value is a byte. -/
def byteAt (b : Nat → Nat) (i : Nat) : Nat := b i % 256

/- ------------------------------------------------------------------ -/
/- baseband.c                                                          -/
/- ------------------------------------------------------------------ -/

/-- `calc_squares` / `scaled_squares` from baseband.c: entry `i` is the C
`int` value `(127 - i) * (127 - i)` stored into a `uint16_t`. -/
def scaled_squares (i : Nat) : Nat :=
  cUInt16n ((((127 : Int) - i) * ((127 : Int) - i)).toNat)

/-- The loop of `envelope_detect`: starting at input sample index `i`,
emit `scaled_squares[iq[2*i]] + scaled_squares[iq[2*i+1]]` and advance by
the stride `2^decimate` while `i < len`. -/
def envelopeLoop (iq : Nat → Nat) (len d : Nat) (i : Nat) : List Nat :=
  if i < len then
    cUInt16n (scaled_squares (byteAt iq (2 * i)) + scaled_squares (byteAt iq (2 * i + 1)))
      :: envelopeLoop iq len d (i + 2 ^ d)
  else []
termination_by len - i
decreasing_by
  have h2 : 0 < 2 ^ d := Nat.pos_pow_of_pos d (by decide)
  omega

/-- `envelope_detect` from baseband.c. -/
def envelope_detect (iq : Nat → Nat) (len : Nat) (decimate : Nat) : List Nat :=
  envelopeLoop iq len decimate 0

/-- The shared first-order IIR update of baseband.c, with `b[0] = b[1]`:
`((a1*yprev >> 1) + (b0*x >> 1) + (b0*xprev >> 1)) >> (F_SCALE - 1)`,
stored into an `int16_t`. -/
def iirStep (a1 b0 yprev x xprev : Int) : Int :=
  toInt16 (sar (sar (a1 * yprev) 1 + sar (b0 * x) 1 + sar (b0 * xprev) 1) 14)

/-- Q15 coefficient `a[1] = FIX(0.85408)` of the low-pass filter. -/
def lpA1 : Int := 27986

/-- Q15 coefficient `b[0] = b[1] = FIX(0.07296)` of the low-pass filter. -/
def lpB : Int := 2390

/-- `FilterState` from baseband.h with `FILTER_ORDER = 1`: the saved
`int16_t` input and output samples. -/
structure FilterState where
  x0 : Int
  y0 : Int
deriving DecidableEq, Repr

/-- The output loop of `baseband_low_pass_filter`: each output is
`iirStep` of the previous output, the current input and the previous
input; inputs are `uint16_t` values. -/
def lpLoop (yprev xprev : Int) : List Nat → List Int
  | [] => []
  | xi :: rest =>
      let yi := iirStep lpA1 lpB yprev ((xi % 65536 : Nat) : Int) xprev
      yi :: lpLoop yi ((xi % 65536 : Nat) : Int) rest

/-- `baseband_low_pass_filter` from baseband.c: computes the outputs
(first sample against the carried state) and then saves the samples at
index `len - 1 - FILTER_ORDER = len - 2` back into the state; the input
save reinterprets a `uint16_t` as an `int16_t` (memcpy). -/
def baseband_low_pass_filter (x : List Nat) (st : FilterState) : List Int × FilterState :=
  let y := lpLoop st.y0 st.x0 x
  (y, { x0 := toInt16 ((x.getD (x.length - 2) 0 : Nat) : Int),
        y0 := y.getD (y.length - 2) 0 })

/-- Q15 coefficient `alp[1] = FIX(0.72654)` of the demodulator low-pass. -/
def fmA1 : Int := 23807

/-- Q15 coefficient `blp[0] = blp[1] = FIX(0.13673)` of the demodulator
low-pass. -/
def fmB : Int := 4480

/-- `DemodFM_State` from baseband.h: the previous complex sample. -/
structure DemodFM_State where
  br : Int
  bi : Int
deriving DecidableEq, Repr

/-- The four `int16_t` locals of `baseband_demod_FM` that are read before
being written on the first iteration (`xdc_old`, `ydc_old`, `xlp_old`,
`ylp_old`): they are uninitialized at function entry, so each call starts
from an arbitrary environment. -/
structure DemodLocals where
  xdc_old : Int
  ydc_old : Int
  xlp_old : Int
  ylp_old : Int
deriving DecidableEq, Repr

/-- One iteration of the `baseband_demod_FM` loop on the raw byte pair
`p`, carrying the previous sample `(ar, ai)` and the filter locals.
Returns the new `(ar, ai)`, the new locals and the output sample. -/
def demodStep (p : Nat × Nat) (ar ai : Int) (L : DemodLocals) :
    Int × Int × DemodLocals × Int :=
  let br := ar
  let bi := ai
  let ar2 : Int := ((p.1 % 256 : Nat) : Int) - 128
  let ai2 : Int := ((p.2 % 256 : Nat) : Int) - 128
  let pim := ai2 * br - ar2 * bi
  let xdc := toInt16 pim
  let ydc := toInt16 (xdc - L.xdc_old + L.ydc_old - Int.tdiv L.ydc_old 256)
  let xlp := ydc
  let ylp := iirStep fmA1 fmB L.ylp_old xlp L.xlp_old
  (ar2, ai2, ⟨xdc, ydc, xlp, ylp⟩, ylp)

/-- The `baseband_demod_FM` loop over the list of IQ byte pairs: returns
the output samples, the final `(ar, ai)` and the final locals. -/
def demodLoop : List (Nat × Nat) → Int → Int → DemodLocals →
    List Int × Int × Int × DemodLocals
  | [], ar, ai, L => ([], ar, ai, L)
  | p :: rest, ar, ai, L =>
      let s := demodStep p ar ai L
      let r := demodLoop rest s.1 s.2.1 s.2.2.1
      (s.2.2.2 :: r.1, r.2)

/-- `baseband_demod_FM` from baseband.c: pre-feeds the carried complex
sample, runs the loop from the (uninitialized) locals `junk`, and stores
the newest complex sample back into the state. -/
def baseband_demod_FM (xs : List (Nat × Nat)) (junk : DemodLocals)
    (st : DemodFM_State) : List Int × DemodFM_State :=
  let r := demodLoop xs st.br st.bi junk
  (r.1, ⟨r.2.1, r.2.2.1⟩)

/- ------------------------------------------------------------------ -/
/- devices/gridstream.c                                                -/
/- ------------------------------------------------------------------ -/

/-- Modelled from the spec: the CRC-16 primitive (`crc16` of rtl_433's
util.c) is not under src/. The spec fixes it as a CRC-16 with polynomial
`0x1021` computed over `bytes[0..length)` from a seed (MSB-first shift
register, the standard CCITT form): per byte the register is xored with
the byte shifted left 8, then shifted left bit by bit 8 times, xoring the
polynomial out whenever the top bit was set. One bit step of that
register, truncated to 16 bits. -/
def crcBit (poly c : Nat) : Nat :=
  if c &&& 32768 ≠ 0 then ((c <<< 1) ^^^ poly) &&& 65535
  else (c <<< 1) &&& 65535

/-- Modelled from the spec: `k` bit steps of the CRC register. -/
def crcBits (poly : Nat) : Nat → Nat → Nat
  | 0, c => c
  | k + 1, c => crcBits poly k (crcBit poly c)

/-- Modelled from the spec: the byte loop of the CRC-16 over
`get start, get (start+1), ..., get (start+n-1)`. -/
def crc16go (get : Nat → Nat) (poly : Nat) : Nat → Nat → Nat → Nat
  | _, 0, c => c
  | i, n + 1, c => crc16go get poly (i + 1) n (crcBits poly 8 (c ^^^ (byteAt get i <<< 8)))

/-- Modelled from the spec: `crc16(&b[start], n, poly, seed)`. -/
def crc16 (get : Nat → Nat) (start n poly seed : Nat) : Nat :=
  crc16go get poly start n (seed &&& 65535)

/-- `known_crc_init` from gridstream.c: the fixed ordered table of
candidate CRC seeds. -/
def known_crc_init : List Nat :=
  [0xe623, 0x5fd6, 0xD553, 0x45F8, 0x62C1, 0x23D1, 0x2C22, 0x142A]

/-- The seed-search do-while loop of `gridstream_decode`: walk the seed
table in order, stop at the first seed whose CRC equals the trailer
`crc`, return that seed (or none when the table is exhausted). -/
def seedLoop (compute : Nat → Nat) (crc : Nat) : List Nat → Option Nat
  | [] => none
  | s :: rest => if compute s = crc then some s else seedLoop compute crc rest

/-- The number of CRC computations the seed-search loop performs. -/
def seedLoopCount (compute : Nat → Nat) (crc : Nat) : List Nat → Nat
  | [] => 0
  | s :: rest => if compute s = crc then 1 else 1 + seedLoopCount compute crc rest

/-- The 16-bit big-endian length field `(b[4] << 8) | b[5]` stored into
the `uint16_t` `stream_len` (subtypes 0x55 and 0xD5). -/
def streamLen16 (b : Nat → Nat) : Nat :=
  cUInt16n (Nat.lor (byteAt b 4 <<< 8) (byteAt b 5))

/-- The CRC trailer `(b[4+stream_len] << 8) | b[5+stream_len]` stored
into the `uint16_t` `crc` (subtypes 0x55 and 0xD5). -/
def trailer16 (b : Nat → Nat) (sl : Nat) : Nat :=
  cUInt16n (Nat.lor (byteAt b (4 + sl) <<< 8) (byteAt b (5 + sl)))

/-- The CRC trailer of subtype 0xD2:
`(b[3+stream_len] << 8) | b[4+stream_len]`. -/
def trailerD2 (b : Nat → Nat) (sl : Nat) : Nat :=
  cUInt16n (Nat.lor (byteAt b (3 + sl) <<< 8) (byteAt b (4 + sl)))

/-- The byte count handed to `crc16`: the C expression `stream_len - 2`
promotes the `uint16_t` to `int` and converts the result to the
`unsigned` parameter, so for `stream_len < 2` it wraps modulo 2^32. -/
def nBytesOf (sl : Nat) : Nat := cUnsigned ((sl : Int) - 2)

/-- The 32-bit big-endian field
`((uint32_t)b[i] << 24) | (b[i+1] << 16) | (b[i+2] << 8) | b[i+3]`. -/
def be32At (b : Nat → Nat) (i : Nat) : Nat :=
  Nat.lor (Nat.lor (Nat.lor (byteAt b i <<< 24) (byteAt b (i + 1) <<< 16))
    (byteAt b (i + 2) <<< 8)) (byteAt b (i + 3))

/-- The `data_t` record built by `gridstream_decode` (field values kept
raw: address strings as their byte lists, the clock before `strftime`
formatting as its 32-bit value). `idBytes = none` models the literal
integer id `0` of subtype 0xD2. -/
structure DecodedRecord where
  subtype : Nat
  idBytes : Option (List Nat)
  wanaddress : Option (List Nat)
  destaddress : Option (List Nat)
  uptime : Option Nat
  timestamp : Option Nat
deriving DecidableEq, Repr

/-- The result of one `gridstream_decode` attempt. `success emitted`
models reaching `decoder_output_data(decoder, data); return 1;`, with
`emitted = none` when control reaches that point with the local `data`
still uninitialized (no `data_make` was executed on the path). -/
inductive DecodeResult where
  | failSanity
  | abortLength
  | failMic
  | success (emitted : Option DecodedRecord)
deriving DecidableEq, Repr

/-- The record built in the subtype 0x55 branch. -/
def record55 (b : Nat → Nat) : DecodedRecord :=
  { subtype := byteAt b 3,
    idBytes := some [byteAt b 26, byteAt b 27, byteAt b 28, byteAt b 29],
    wanaddress := some [byteAt b 13, byteAt b 14, byteAt b 15, byteAt b 16,
      byteAt b 17, byteAt b 18],
    destaddress := some [byteAt b 7, byteAt b 8, byteAt b 9, byteAt b 10,
      byteAt b 11, byteAt b 12],
    uptime := some (be32At b 20),
    timestamp := none }

/-- The record built in the subtype 0xD2 branch (integer id 0, no
addresses). -/
def recordD2 (b : Nat → Nat) : DecodedRecord :=
  { subtype := byteAt b 3,
    idBytes := none,
    wanaddress := none,
    destaddress := none,
    uptime := none,
    timestamp := none }

/-- The record built in the subtype 0xD5 branch: base fields always
(4-byte dest address from bytes 7..10, 4-byte id from bytes 26..29), and
when `stream_len == 0x47` also the clock from bytes 16..19, the uptime
from bytes 24..27 and the 6-byte WAN address from bytes 32..37. -/
def recordD5 (b : Nat → Nat) (sl : Nat) : DecodedRecord :=
  if sl = 0x47 then
    { subtype := byteAt b 3,
      idBytes := some [byteAt b 26, byteAt b 27, byteAt b 28, byteAt b 29],
      wanaddress := some [byteAt b 32, byteAt b 33, byteAt b 34, byteAt b 35,
        byteAt b 36, byteAt b 37],
      destaddress := some [byteAt b 7, byteAt b 8, byteAt b 9, byteAt b 10],
      uptime := some (be32At b 24),
      timestamp := some (be32At b 16) }
  else
    { subtype := byteAt b 3,
      idBytes := some [byteAt b 26, byteAt b 27, byteAt b 28, byteAt b 29],
      wanaddress := none,
      destaddress := some [byteAt b 7, byteAt b 8, byteAt b 9, byteAt b 10],
      uptime := none,
      timestamp := none }

/-- The `case 0x55` branch of `gridstream_decode`. -/
def decode55 (b : Nat → Nat) (decoded_len : Int) : DecodeResult :=
  let stream_len := streamLen16 b
  if decoded_len - 6 < (stream_len : Int) then .abortLength
  else
    match seedLoop (fun s => crc16 b 6 (nBytesOf stream_len) 0x1021 s)
        (trailer16 b stream_len) known_crc_init with
    | none => .failMic
    | some _ => .success (some (record55 b))

/-- The `case 0xD2` branch of `gridstream_decode`: 8-bit length field at
`b[4]`, body from byte 5, trailer shifted one byte down. -/
def decodeD2 (b : Nat → Nat) (decoded_len : Int) : DecodeResult :=
  let stream_len := byteAt b 4
  if decoded_len - 5 < (stream_len : Int) then .abortLength
  else
    match seedLoop (fun s => crc16 b 5 (nBytesOf stream_len) 0x1021 s)
        (trailerD2 b stream_len) known_crc_init with
    | none => .failMic
    | some _ => .success (some (recordD2 b))

/-- The `case 0xD5` branch of `gridstream_decode`. -/
def decodeD5 (b : Nat → Nat) (decoded_len : Int) : DecodeResult :=
  let stream_len := streamLen16 b
  if decoded_len - 6 < (stream_len : Int) then .abortLength
  else
    match seedLoop (fun s => crc16 b 6 (nBytesOf stream_len) 0x1021 s)
        (trailer16 b stream_len) known_crc_init with
    | none => .failMic
    | some _ => .success (some (recordD5 b stream_len))

/-- `gridstream_decode` from gridstream.c, from the point where the UART
byte extraction has produced the byte array `b` and the signed count
`decoded_len`: the sanity guard, the type switch on `b[2]` (default:
`DECODE_ABORT_LENGTH`), the subtype switch on `b[3]`, and the final
`decoder_output_data` + `return 1`. A subtype other than 0x55/0xD2/0xD5
falls through the inner switch without assigning `data`, reaching the
output call with `data` uninitialized: modelled as `success none`. -/
def gridstream_decode (b : Nat → Nat) (decoded_len : Int) : DecodeResult :=
  if 5 ≤ decoded_len then
    if byteAt b 2 = 0x2A then
      if byteAt b 3 = 0x55 then decode55 b decoded_len
      else if byteAt b 3 = 0xD2 then decodeD2 b decoded_len
      else if byteAt b 3 = 0xD5 then decodeD5 b decoded_len
      else .success none
    else .abortLength
  else .failSanity

/- ------------------------------------------------------------------ -/
/- Concrete example inputs                                             -/
/- ------------------------------------------------------------------ -/

/-- A 6-byte decoded frame of subtype 0x55 declaring `stream_len = 0`. -/
def exFrameLen0 : Nat → Nat := fun i => [0, 0, 0x2A, 0x55, 0, 0].getD i 0

/-- A 5-byte decoded frame with valid type 0x2A but unknown subtype 0. -/
def exFrameUnknownSubtype : Nat → Nat := fun i => [0, 0, 0x2A, 0, 0].getD i 0

/-- An 8-byte decoded frame of subtype 0x55 with `stream_len = 2`: the
CRC runs over zero bytes, so it equals the seed, and the trailer bytes
0xE6 0x23 match the first table seed 0xe623. -/
def exFrame55 : Nat → Nat := fun i => [0, 0, 0x2A, 0x55, 0, 2, 0xE6, 0x23].getD i 0

/-- Like `exFrame55` but of subtype 0xD5. -/
def exFrameD5 : Nat → Nat := fun i => [0, 0, 0x2A, 0xD5, 0, 2, 0xE6, 0x23].getD i 0

/-- Like `exFrame55` but with a trailer 0x0000 that no seed matches. -/
def exFrameBadCrc : Nat → Nat := fun i => [0, 0, 0x2A, 0x55, 0, 2, 0, 0].getD i 0

/-- All-zero initial locals for the FM demodulator (the most charitable
deterministic reading of the uninitialized C locals). -/
def junk0 : DemodLocals := ⟨0, 0, 0, 0⟩

/- ------------------------------------------------------------------ -/
/- Helper lemmas                                                       -/
/- ------------------------------------------------------------------ -/

theorem seedLoop_eq_find (f : Nat → Nat) (crc : Nat) :
    ∀ l : List Nat, seedLoop f crc l = l.find? (fun s => f s == crc) := by
  intro l
  induction l with
  | nil => rfl
  | cons s rest ih =>
      by_cases h : f s = crc
      · simp [seedLoop, List.find?, h]
      · have hb : (f s == crc) = false := by simp [h]
        simp [seedLoop, List.find?, h, hb, ih]

theorem seedLoopCount_le (f : Nat → Nat) (crc : Nat) :
    ∀ l : List Nat, seedLoopCount f crc l ≤ l.length := by
  intro l
  induction l with
  | nil => simp [seedLoopCount]
  | cons s rest ih =>
      by_cases h : f s = crc
      · simp [seedLoopCount, h]
      · simp only [seedLoopCount, if_neg h, List.length_cons]
        omega

theorem demodLoop_length (xs : List (Nat × Nat)) :
    ∀ ar ai L, (demodLoop xs ar ai L).1.length = xs.length := by
  induction xs with
  | nil => intro ar ai L; rfl
  | cons p rest ih => intro ar ai L; simp [demodLoop, ih]

theorem demodLoop_append (xs ys : List (Nat × Nat)) :
    ∀ ar ai L,
      demodLoop (xs ++ ys) ar ai L =
        ((demodLoop xs ar ai L).1 ++
          (demodLoop ys (demodLoop xs ar ai L).2.1 (demodLoop xs ar ai L).2.2.1
            (demodLoop xs ar ai L).2.2.2).1,
         (demodLoop ys (demodLoop xs ar ai L).2.1 (demodLoop xs ar ai L).2.2.1
            (demodLoop xs ar ai L).2.2.2).2) := by
  induction xs with
  | nil => intro ar ai L; rfl
  | cons p rest ih =>
      intro ar ai L
      simp [demodLoop, ih]

theorem demodLoop_sample_locals_free (xs : List (Nat × Nat)) :
    ∀ ar ai L L2, (demodLoop xs ar ai L).2.1 = (demodLoop xs ar ai L2).2.1 ∧
      (demodLoop xs ar ai L).2.2.1 = (demodLoop xs ar ai L2).2.2.1 := by
  induction xs with
  | nil => intro ar ai L L2; exact ⟨rfl, rfl⟩
  | cons p rest ih =>
      intro ar ai L L2
      simp only [demodLoop]
      exact ih _ _ _ _

theorem envelopeLoop_get (iq : Nat → Nat) (len d : Nat) :
    ∀ (op i : Nat),
      (envelopeLoop iq len d i).get? op =
        if i + op * 2 ^ d < len then
          some (cUInt16n (scaled_squares (byteAt iq (2 * (i + op * 2 ^ d))) +
            scaled_squares (byteAt iq (2 * (i + op * 2 ^ d) + 1))))
        else none := by
  intro op
  induction op with
  | zero =>
      intro i
      rw [envelopeLoop]
      by_cases h : i < len
      · simp [h]
      · simp [h]
  | succ op ih =>
      intro i
      rw [envelopeLoop]
      by_cases h : i < len
      · rw [if_pos h]
        rw [List.get?_cons_succ]
        rw [ih (i + 2 ^ d)]
        have harith : i + 2 ^ d + op * 2 ^ d = i + (op + 1) * 2 ^ d := by ring
        rw [harith]
      · rw [if_neg h]
        have : ¬ (i + (op + 1) * 2 ^ d < len) := by
          have := Nat.le_add_right i ((op + 1) * 2 ^ d)
          omega
        simp [this]

theorem scaled_squares_le (i : Nat) (h : i < 256) : scaled_squares i ≤ 16384 := by
  interval_cases i <;> decide

/- ------------------------------------------------------------------ -/
/- Claims                                                              -/
/- ------------------------------------------------------------------ -/

/-- C1: the length guard for subtype 0x55 is passed by the declared
length 0 on a 6-byte frame, yet the byte count handed to the CRC is then
`(unsigned)(0 - 2) = 4294967294`, so the CRC check reads bytes far beyond
the 6-byte decoded frame (starting at offset 6, reaching offset
`6 + 4294967294`): the code violates the claim that for every in-range
declared length, including `streamLen = 0`, the CRC reads stay within
the frame. -/
theorem C1_code_bug :
    streamLen16 exFrameLen0 = 0 ∧
    ¬ ((6 : Int) - 6 < (streamLen16 exFrameLen0 : Int)) ∧
    nBytesOf (streamLen16 exFrameLen0) = 4294967294 ∧
    6 < 6 + nBytesOf (streamLen16 exFrameLen0) := by
  refine ⟨by decide, by decide, by decide, by decide⟩

/-- C2: filtering `[0, 100, 0, 0]` from a zeroed state in one call gives
`[0, 7, 13, 11]`, but filtering `[0, 100]` and then `[0, 0]` with the
state carried over gives `[0, 7, 0, 0]`; moreover after the batch
`[0, 100]` the state holds `(0, 0)` — the samples at index `len - 2` —
and not the final input/output samples `(100, 7)`. The code violates the
streaming-equivalence claim. -/
theorem C2_code_bug :
    (baseband_low_pass_filter [0, 100, 0, 0] ⟨0, 0⟩).1 = [0, 7, 13, 11] ∧
    ((baseband_low_pass_filter [0, 100] ⟨0, 0⟩).1 ++
      (baseband_low_pass_filter [0, 0] (baseband_low_pass_filter [0, 100] ⟨0, 0⟩).2).1)
      = [0, 7, 0, 0] ∧
    (baseband_low_pass_filter [0, 100, 0, 0] ⟨0, 0⟩).1 ≠
      ((baseband_low_pass_filter [0, 100] ⟨0, 0⟩).1 ++
        (baseband_low_pass_filter [0, 0] (baseband_low_pass_filter [0, 100] ⟨0, 0⟩).2).1) ∧
    (baseband_low_pass_filter [0, 100] ⟨0, 0⟩).2 = ⟨0, 0⟩ ∧
    (⟨0, 0⟩ : FilterState) ≠ ⟨100, 7⟩ := by
  refine ⟨by decide, by decide, by decide, by decide, by decide⟩

/-- C3 counterexample: demodulating the three byte pairs
`[(128,129), (129,128), (129,128)]` from a zeroed state and zeroed
locals in one call gives `[0, -1, -1]`, but demodulating the first two
pairs and then the last pair with the state carried over (locals zeroed
again at the second call, as the C locals are not persisted) gives
`[0, -1, 0]`: the outputs are not bit-identical, refuting the claim as
stated. -/
theorem C3_counterexample :
    (baseband_demod_FM [(128, 129), (129, 128), (129, 128)] junk0 ⟨0, 0⟩).1 = [0, -1, -1] ∧
    ((baseband_demod_FM [(128, 129), (129, 128)] junk0 ⟨0, 0⟩).1 ++
      (baseband_demod_FM [(129, 128)] junk0
        (baseband_demod_FM [(128, 129), (129, 128)] junk0 ⟨0, 0⟩).2).1) = [0, -1, 0] ∧
    (baseband_demod_FM [(128, 129), (129, 128), (129, 128)] junk0 ⟨0, 0⟩).1 ≠
      ((baseband_demod_FM [(128, 129), (129, 128)] junk0 ⟨0, 0⟩).1 ++
        (baseband_demod_FM [(129, 128)] junk0
          (baseband_demod_FM [(128, 129), (129, 128)] junk0 ⟨0, 0⟩).2).1) := by
  refine ⟨by decide, by decide, by decide⟩

/-- C3 amended: what does hold for `baseband_demod_FM` under any split
and any initial values of the four uninitialized filter locals: the
first sub-call reproduces the first `k` outputs of the one-call run
bit-identically, and the persisted `DemodFM_State` (the last complex
sample) after the second sub-call equals the state after the one-call
run. Bit-identical equality of the remaining outputs fails in general
because the DC-blocker and low-pass locals restart at every call. -/
theorem C3_amended (xs ys : List (Nat × Nat)) (junkA junkB : DemodLocals)
    (st : DemodFM_State) :
    (baseband_demod_FM xs junkA st).1 =
      (baseband_demod_FM (xs ++ ys) junkA st).1.take xs.length ∧
    (baseband_demod_FM ys junkB (baseband_demod_FM xs junkA st).2).2 =
      (baseband_demod_FM (xs ++ ys) junkA st).2 := by
  constructor
  · simp only [baseband_demod_FM, demodLoop_append]
    rw [← demodLoop_length xs st.br st.bi junkA]
    exact (List.take_left _ _).symm
  · simp only [baseband_demod_FM, demodLoop_append]
    have h := demodLoop_sample_locals_free ys
      (demodLoop xs st.br st.bi junkA).2.1 (demodLoop xs st.br st.bi junkA).2.2.1
      junkB (demodLoop xs st.br st.bi junkA).2.2.2
    rw [h.1, h.2]

/-- C4: on a 5-byte frame with type 0x2A and a subtype that is none of
0x55/0xD2/0xD5, `gridstream_decode` reaches
`decoder_output_data(decoder, data); return 1;` with the local `data`
never assigned (the inner switch has no default case), so it signals
success without having constructed any record — refuting the claim that
success implies exactly one constructed `DecodedRecord`. -/
theorem C4_code_bug :
    gridstream_decode exFrameUnknownSubtype 5 = DecodeResult.success none ∧
    ∀ r : DecodedRecord,
      gridstream_decode exFrameUnknownSubtype 5 ≠ DecodeResult.success (some r) := by
  refine ⟨by decide, fun r => ?_⟩
  intro h
  rw [show gridstream_decode exFrameUnknownSubtype 5 = DecodeResult.success none
    from by decide] at h
  exact Option.noConfusion (DecodeResult.success.inj h)

/-- C8: whenever the decoded byte count is below 5, `gridstream_decode`
returns the sanity failure, for every content of the byte buffer (so no
type, subtype, length or payload field influences the result). -/
theorem C8_sanity (b : Nat → Nat) (len : Int) (h : len < 5) :
    gridstream_decode b len = DecodeResult.failSanity := by
  unfold gridstream_decode
  rw [if_neg (by omega)]

/-- C8 witness: a frame of raw length 3 yields the sanity failure. -/
theorem C8_sanity_witness :
    (3 : Int) < 5 ∧ gridstream_decode (fun _ => 0) 3 = DecodeResult.failSanity :=
  ⟨by decide, C8_sanity (fun _ => 0) 3 (by decide)⟩

/-- C9: every entry of the `scaled_squares` table equals the exact
integer square `(127 - i)^2` — the `uint16_t` store truncates nothing —
and being a closed function of the index alone, the table is independent
of any run's sample data. -/
theorem C9_table (i : Nat) (h : i < 256) :
    (scaled_squares i : Int) = ((127 : Int) - i) ^ 2 := by
  interval_cases i <;> decide

/-- C9 witness: the table at indices 0, 127 and 255. -/
theorem C9_table_witness :
    (0 : Nat) < 256 ∧ (scaled_squares 0 : Int) = ((127 : Int) - 0) ^ 2 ∧
    (scaled_squares 255 : Int) = ((127 : Int) - 255) ^ 2 :=
  ⟨by decide, C9_table 0 (by decide), C9_table 255 (by decide)⟩

/-- C5: for every frame of length at least 5 whose type byte is 0x2A and
subtype byte is 0x55: if the declared 16-bit length exceeds
`decoded_len - 6` the decoder aborts with the length failure, and
otherwise, whenever some candidate seed validates the CRC, it emits
exactly the record with destination address from bytes 7..12, source/WAN
address from bytes 13..18, big-endian uptime from bytes 20..23 and id
from bytes 26..29, tagged with subtype 0x55. -/
theorem C5_correct (b : Nat → Nat) (len : Int) (h2 : byteAt b 2 = 0x2A)
    (h3 : byteAt b 3 = 0x55) (h5 : 5 ≤ len) :
    (len - 6 < (streamLen16 b : Int) →
      gridstream_decode b len = DecodeResult.abortLength) ∧
    (¬ (len - 6 < (streamLen16 b : Int)) →
      (seedLoop (fun s => crc16 b 6 (nBytesOf (streamLen16 b)) 0x1021 s)
          (trailer16 b (streamLen16 b)) known_crc_init).isSome →
      gridstream_decode b len = DecodeResult.success (some
        { subtype := 0x55,
          idBytes := some [byteAt b 26, byteAt b 27, byteAt b 28, byteAt b 29],
          wanaddress := some [byteAt b 13, byteAt b 14, byteAt b 15, byteAt b 16,
            byteAt b 17, byteAt b 18],
          destaddress := some [byteAt b 7, byteAt b 8, byteAt b 9, byteAt b 10,
            byteAt b 11, byteAt b 12],
          uptime := some (be32At b 20),
          timestamp := none })) := by
  have hd : gridstream_decode b len = decode55 b len := by
    unfold gridstream_decode
    rw [if_pos h5, if_pos h2, if_pos h3]
  rw [hd]
  constructor
  · intro hg
    simp only [decode55]
    rw [if_pos hg]
  · intro hg hsome
    simp only [decode55]
    rw [if_neg hg]
    obtain ⟨s, hs⟩ := Option.isSome_iff_exists.mp hsome
    rw [hs]
    simp [record55, h3]

/-- C5 witness: a concrete 8-byte subtype-0x55 frame with declared
length 2 whose trailer 0xE623 matches the first seed over the empty CRC
body decodes to the stated record. -/
theorem C5_witness :
    byteAt exFrame55 2 = 0x2A ∧ byteAt exFrame55 3 = 0x55 ∧ (5 : Int) ≤ 8 ∧
    ¬ ((8 : Int) - 6 < (streamLen16 exFrame55 : Int)) ∧
    gridstream_decode exFrame55 8 = DecodeResult.success (some
      { subtype := 0x55,
        idBytes := some [0, 0, 0, 0],
        wanaddress := some [0, 0, 0, 0, 0, 0],
        destaddress := some [0x23, 0, 0, 0, 0, 0],
        uptime := some 0,
        timestamp := none }) := by
  refine ⟨by decide, by decide, by decide, by decide, ?_⟩
  have h := (C5_correct exFrame55 8 (by decide) (by decide) (by decide)).2
    (by decide) (by decide)
  rw [h]
  decide

/-- C6: for every frame of length at least 5 with type 0x2A, subtype
0xD5, a declared length within bounds and a CRC some candidate seed
validates, the decoder emits the subtype-0xD5 record; that record
carries the timestamp (bytes 16..19), the uptime (bytes 24..27) and the
WAN address (bytes 32..37) exactly when the declared length is 0x47, and
otherwise only the base fields: the id from bytes 26..29 and the
destination address from bytes 7..10. -/
theorem C6_correct (b : Nat → Nat) (len : Int) (h2 : byteAt b 2 = 0x2A)
    (h3 : byteAt b 3 = 0xD5) (h5 : 5 ≤ len)
    (hg : ¬ (len - 6 < (streamLen16 b : Int)))
    (hcrc : (seedLoop (fun s => crc16 b 6 (nBytesOf (streamLen16 b)) 0x1021 s)
      (trailer16 b (streamLen16 b)) known_crc_init).isSome) :
    gridstream_decode b len =
      DecodeResult.success (some (recordD5 b (streamLen16 b))) ∧
    (streamLen16 b = 0x47 →
      recordD5 b (streamLen16 b) =
        { subtype := 0xD5,
          idBytes := some [byteAt b 26, byteAt b 27, byteAt b 28, byteAt b 29],
          wanaddress := some [byteAt b 32, byteAt b 33, byteAt b 34, byteAt b 35,
            byteAt b 36, byteAt b 37],
          destaddress := some [byteAt b 7, byteAt b 8, byteAt b 9, byteAt b 10],
          uptime := some (be32At b 24),
          timestamp := some (be32At b 16) }) ∧
    (streamLen16 b ≠ 0x47 →
      recordD5 b (streamLen16 b) =
        { subtype := 0xD5,
          idBytes := some [byteAt b 26, byteAt b 27, byteAt b 28, byteAt b 29],
          wanaddress := none,
          destaddress := some [byteAt b 7, byteAt b 8, byteAt b 9, byteAt b 10],
          uptime := none,
          timestamp := none }) ∧
    (((recordD5 b (streamLen16 b)).timestamp.isSome ∧
      (recordD5 b (streamLen16 b)).uptime.isSome ∧
      (recordD5 b (streamLen16 b)).wanaddress.isSome) ↔ streamLen16 b = 0x47) := by
  have hn55 : ¬ (byteAt b 3 = 0x55) := by rw [h3]; decide
  have hnD2 : ¬ (byteAt b 3 = 0xD2) := by rw [h3]; decide
  have hd : gridstream_decode b len = decodeD5 b len := by
    unfold gridstream_decode
    rw [if_pos h5, if_pos h2, if_neg hn55, if_neg hnD2, if_pos h3]
  refine ⟨?_, ?_, ?_, ?_⟩
  · rw [hd]
    simp only [decodeD5]
    rw [if_neg hg]
    obtain ⟨s, hs⟩ := Option.isSome_iff_exists.mp hcrc
    rw [hs]
  · intro hsl
    simp [recordD5, hsl, h3]
  · intro hsl
    simp [recordD5, hsl, h3]
  · by_cases hsl : streamLen16 b = 0x47
    · simp [recordD5, hsl]
    · simp [recordD5, hsl]

/-- C6 witness: a concrete 8-byte subtype-0xD5 frame with declared
length 2 (not 0x47) decodes to the record with only the base fields. -/
theorem C6_witness :
    byteAt exFrameD5 2 = 0x2A ∧ byteAt exFrameD5 3 = 0xD5 ∧ (5 : Int) ≤ 8 ∧
    ¬ ((8 : Int) - 6 < (streamLen16 exFrameD5 : Int)) ∧ streamLen16 exFrameD5 ≠ 0x47 ∧
    gridstream_decode exFrameD5 8 = DecodeResult.success (some
      { subtype := 0xD5,
        idBytes := some [0, 0, 0, 0],
        wanaddress := none,
        destaddress := some [0x23, 0, 0, 0],
        uptime := none,
        timestamp := none }) := by
  refine ⟨by decide, by decide, by decide, by decide, by decide, ?_⟩
  have h := (C6_correct exFrameD5 8 (by decide) (by decide) (by decide)
    (by decide) (by decide)).1
  rw [h]
  decide

/-- C7: the seed search of `gridstream_decode` walks the fixed table
`{0xe623, 0x5fd6, 0xD553, 0x45F8, 0x62C1, 0x23D1, 0x2C22, 0x142A}` in
order and returns the first seed whose CRC-16 (polynomial 0x1021)
equals the trailer; it performs at most 8 CRC computations; and in each
subtype branch that passed its length guard the decode attempt returns
the MIC failure exactly when no candidate seed matches. -/
theorem C7_correct :
    known_crc_init = [0xe623, 0x5fd6, 0xD553, 0x45F8, 0x62C1, 0x23D1, 0x2C22, 0x142A] ∧
    (∀ (f : Nat → Nat) (crc : Nat),
      seedLoop f crc known_crc_init = known_crc_init.find? (fun s => f s == crc)) ∧
    (∀ (f : Nat → Nat) (crc : Nat), seedLoopCount f crc known_crc_init ≤ 8) ∧
    (∀ (b : Nat → Nat) (len : Int), 5 ≤ len → byteAt b 2 = 0x2A →
      ((byteAt b 3 = 0x55 → ¬ (len - 6 < (streamLen16 b : Int)) →
        (gridstream_decode b len = DecodeResult.failMic ↔
          seedLoop (fun s => crc16 b 6 (nBytesOf (streamLen16 b)) 0x1021 s)
            (trailer16 b (streamLen16 b)) known_crc_init = none)) ∧
       (byteAt b 3 = 0xD2 → ¬ (len - 5 < (byteAt b 4 : Int)) →
        (gridstream_decode b len = DecodeResult.failMic ↔
          seedLoop (fun s => crc16 b 5 (nBytesOf (byteAt b 4)) 0x1021 s)
            (trailerD2 b (byteAt b 4)) known_crc_init = none)) ∧
       (byteAt b 3 = 0xD5 → ¬ (len - 6 < (streamLen16 b : Int)) →
        (gridstream_decode b len = DecodeResult.failMic ↔
          seedLoop (fun s => crc16 b 6 (nBytesOf (streamLen16 b)) 0x1021 s)
            (trailer16 b (streamLen16 b)) known_crc_init = none)))) := by
  refine ⟨rfl, fun f crc => seedLoop_eq_find f crc known_crc_init,
    fun f crc => seedLoopCount_le f crc known_crc_init, ?_⟩
  intro b len h5 h2
  refine ⟨?_, ?_, ?_⟩
  · intro h3 hg
    have hd : gridstream_decode b len = decode55 b len := by
      unfold gridstream_decode
      rw [if_pos h5, if_pos h2, if_pos h3]
    rw [hd]
    simp only [decode55]
    rw [if_neg hg]
    cases hopt : seedLoop (fun s => crc16 b 6 (nBytesOf (streamLen16 b)) 0x1021 s)
        (trailer16 b (streamLen16 b)) known_crc_init with
    | none => simp
    | some s => simp
  · intro h3 hg
    have hn55 : ¬ (byteAt b 3 = 0x55) := by rw [h3]; decide
    have hd : gridstream_decode b len = decodeD2 b len := by
      unfold gridstream_decode
      rw [if_pos h5, if_pos h2, if_neg hn55, if_pos h3]
    rw [hd]
    simp only [decodeD2]
    rw [if_neg hg]
    cases hopt : seedLoop (fun s => crc16 b 5 (nBytesOf (byteAt b 4)) 0x1021 s)
        (trailerD2 b (byteAt b 4)) known_crc_init with
    | none => simp
    | some s => simp
  · intro h3 hg
    have hn55 : ¬ (byteAt b 3 = 0x55) := by rw [h3]; decide
    have hnD2 : ¬ (byteAt b 3 = 0xD2) := by rw [h3]; decide
    have hd : gridstream_decode b len = decodeD5 b len := by
      unfold gridstream_decode
      rw [if_pos h5, if_pos h2, if_neg hn55, if_neg hnD2, if_pos h3]
    rw [hd]
    simp only [decodeD5]
    rw [if_neg hg]
    cases hopt : seedLoop (fun s => crc16 b 6 (nBytesOf (streamLen16 b)) 0x1021 s)
        (trailer16 b (streamLen16 b)) known_crc_init with
    | none => simp
    | some s => simp

/-- C7 witness: on a concrete 8-byte subtype-0x55 frame whose trailer
0x0000 no candidate seed matches, the decode attempt fails with MIC. -/
theorem C7_witness :
    (5 : Int) ≤ 8 ∧ byteAt exFrameBadCrc 2 = 0x2A ∧ byteAt exFrameBadCrc 3 = 0x55 ∧
    ¬ ((8 : Int) - 6 < (streamLen16 exFrameBadCrc : Int)) ∧
    gridstream_decode exFrameBadCrc 8 = DecodeResult.failMic := by
  refine ⟨by decide, by decide, by decide, by decide, ?_⟩
  exact ((C7_correct.2.2.2 exFrameBadCrc 8 (by decide) (by decide)).1
    (by decide) (by decide)).mpr (by decide)

/-- C10: every output of the envelope detector at output index `op` is
`scaled_squares[I] + scaled_squares[Q]` for the input sample pair
selected with stride `2^decimate` (no `uint16_t` truncation occurs), a
pair with I = Q = 127 yields 0, and a pair with I = Q = 0 yields
`2 * 127^2`. -/
theorem C10_envelope :
    (∀ (iq : Nat → Nat) (len d op : Nat), op * 2 ^ d < len →
      (envelope_detect iq len d).get? op =
        some (scaled_squares (byteAt iq (2 * (op * 2 ^ d))) +
          scaled_squares (byteAt iq (2 * (op * 2 ^ d) + 1)))) ∧
    envelope_detect (fun _ => 127) 1 0 = [0] ∧
    envelope_detect (fun _ => 0) 1 0 = [2 * 127 ^ 2] := by
  refine ⟨?_, ?_, ?_⟩
  case refine_2 =>
    unfold envelope_detect
    rw [envelopeLoop, if_pos (by decide : (0 : Nat) < 1)]
    rw [envelopeLoop, if_neg (by decide : ¬ (0 + 2 ^ 0 < 1))]
    decide
  case refine_3 =>
    unfold envelope_detect
    rw [envelopeLoop, if_pos (by decide : (0 : Nat) < 1)]
    rw [envelopeLoop, if_neg (by decide : ¬ (0 + 2 ^ 0 < 1))]
    decide
  intro iq len d op h
  unfold envelope_detect
  rw [envelopeLoop_get]
  simp only [Nat.zero_add]
  rw [if_pos h]
  have h1 := scaled_squares_le (byteAt iq (2 * (op * 2 ^ d)))
    (Nat.mod_lt _ (by decide))
  have h2 := scaled_squares_le (byteAt iq (2 * (op * 2 ^ d) + 1))
    (Nat.mod_lt _ (by decide))
  unfold cUInt16n
  rw [Nat.mod_eq_of_lt (by omega)]

/-- C10 witness: the general indexing law at the concrete all-127 input
of one sample with no decimation. -/
theorem C10_envelope_witness :
    0 * 2 ^ 0 < 1 ∧
    (envelope_detect (fun _ => 127) 1 0).get? 0 =
      some (scaled_squares (byteAt (fun _ => 127) (2 * (0 * 2 ^ 0))) +
        scaled_squares (byteAt (fun _ => 127) (2 * (0 * 2 ^ 0) + 1))) :=
  ⟨by decide, C10_envelope.1 (fun _ => 127) 1 0 0 (by decide)⟩
